import Mathlib

/-!
Verification of the IgniteParseAuthKit authentication core.

This file gives a shallow embedding, in Lean, of the authentication state
machine of the repository: the validation helpers (`validation.ts`), the
auth reducer (modular `reducer.ts` and the legacy inline copy in
`AuthContext.tsx`), the auth services (`services.ts`: `loginUser`,
`signInWithGoogle`, `logoutUser`, `restoreUserSession`), and the
coordinator wrappers of `AuthProvider` (`login`, `logout`,
`initializeAuth`).

Modelling conventions:
- JavaScript strings are Lean `String`; `undefined`-able values are
  `Option`; JS truthiness of an optional string (`undefined` and `""` are
  falsy) is the function `optTruthy`.
- Asynchronous backend calls are parameters of type `Except String α`:
  `.ok` is a resolved promise, `.error msg` is a thrown `Error` carrying
  `msg` as its `message` (thrown values are modelled by their message
  string; the services only inspect `error.message`).
- React dispatches are synchronous reducer applications; the coordinator
  wrappers thread the `AuthState` and the persisted MMKV record
  (`Persist`) explicitly, and `logout` additionally records the ordered
  list of its side effects (`Effect`) so that ordering claims are
  statable.
-/

/-! ## JS string semantics helpers -/

/-- JS regex `\s` whitespace class (the set used by `replace(/\s+/g,"")`,
`trim()` and the `[^\s@]` classes of the e-mail regex). -/
def isJsWhitespace (c : Char) : Bool :=
  c == ' ' || c == '\t' || c == '\n' || c == '\r' ||
  c.val == 11 || c.val == 12 ||
  c.val == 0xa0 || c.val == 0x1680 ||
  (0x2000 ≤ c.val && c.val ≤ 0x200a) ||
  c.val == 0x2028 || c.val == 0x2029 || c.val == 0x202f ||
  c.val == 0x205f || c.val == 0x3000 || c.val == 0xfeff

/-- `s.replace(/\s+/g, "")`: remove every whitespace character. -/
def stripWhitespace (s : String) : String :=
  String.mk (s.data.filter (fun c => !(isJsWhitespace c)))

/-- `s.trim()`: drop leading and trailing whitespace. -/
def jsTrim (s : String) : String :=
  String.mk (((s.data.dropWhile isJsWhitespace).reverse.dropWhile isJsWhitespace).reverse)

/-- Boolean list-prefix test (structural helper for `strIncludes`). -/
def listHasPrefix : List Char → List Char → Bool
  | [], _ => true
  | _ :: _, [] => false
  | p :: ps, c :: cs => p == c && listHasPrefix ps cs

/-- Does `pat` occur as a contiguous sublist? -/
def listIncludes (pat : List Char) : List Char → Bool
  | [] => listHasPrefix pat []
  | c :: cs => listHasPrefix pat (c :: cs) || listIncludes pat cs

/-- JS `s.includes(pat)`. -/
def strIncludes (s pat : String) : Bool :=
  listIncludes pat.data s.data

/-- JS truthiness of an optional string: `undefined` and `""` are falsy. -/
def optTruthy : Option String → Bool
  | none => false
  | some s => s != ""

/-- JS `a || b` on optional strings: the first truthy operand. -/
def jsOrStr (a b : Option String) : Option String :=
  if optTruthy a then a else b

/-! ## Validation (`src/app/context/auth/validation.ts`) -/

/-- `[^\s@]` character class of the e-mail regex. -/
def isEmailChar (c : Char) : Bool :=
  !(isJsWhitespace c) && c != '@'

/-- Split a list at the first occurrence of `c`; `none` when `c` is absent. -/
def splitAtFirst (c : Char) : List Char → Option (List Char × List Char)
  | [] => none
  | x :: xs =>
    if x = c then some ([], xs)
    else
      match splitAtFirst c xs with
      | none => none
      | some (l, r) => some (x :: l, r)

/-- A dot occurring neither first nor last in the list. -/
def hasInteriorDot (cs : List Char) : Bool :=
  ((cs.drop 1).dropLast).contains '.'

/-- Anchored match of `/^[^\s@]+@[^\s@]+\.[^\s@]+$/`: a non-empty run of
non-whitespace non-`@` characters, one literal `@` (necessarily the first
`@` of the string), and a remainder of class characters containing a dot
with at least one character on each side. -/
def emailRegexTest (s : String) : Bool :=
  match splitAtFirst '@' s.data with
  | none => false
  | some (l, r) =>
    !l.isEmpty && l.all isEmailChar && r.all isEmailChar && hasInteriorDot r

/-- `validateEmail` from `validation.ts`. -/
def validateEmail (email : String) : Option String :=
  if email.length == 0 then some "Email can't be blank"
  else if !(emailRegexTest email) then some "Must be a valid email address"
  else none

/-- `validatePassword` from `validation.ts`. -/
def validatePassword (password : String) : Option String :=
  if password.length == 0 then some "Password can't be blank"
  else if password.length < 6 then some "Password must be at least 6 characters"
  else none

/-! ## Data model -/

/-- The narrow `Parse.User` surface the core relies on (`IAppUser`:
`id`, `getSessionToken()`, `getUsername()`, `getEmail()`). -/
structure User where
  objectId : String
  sessionToken : String
  username : String
  email : String
  deriving DecidableEq

/-- The structured MMKV snapshot (`PersistedUserData` in `types.ts`). -/
structure PersistedUserData where
  objectId : String
  sessionToken : String
  username : String
  email : String
  deriving DecidableEq

/-- In-memory auth state kept by the provider (`AuthState` in `types.ts`). -/
structure AuthState where
  authToken : Option String
  authEmail : String
  authPassword : String
  isLoading : Bool
  error : String
  currentUser : Option User
  username : Option String
  resetPasswordMessage : Option String
  deriving DecidableEq

/-- `initialAuthState` from `reducer.ts` (all optionals unset). -/
def initialAuthState : AuthState :=
  { authToken := none
    authEmail := ""
    authPassword := ""
    isLoading := false
    error := ""
    currentUser := none
    username := none
    resetPasswordMessage := none }

/-- Reducer actions (`AuthAction` in `types.ts`). -/
inductive AuthAction where
  | setAuthEmail (payload : String)
  | setAuthPassword (payload : String)
  | setError (payload : String)
  | setAuthToken (token : Option String)
  | setLoading (payload : Bool)
  | setCurrentUser (payload : Option User)
  | setResetPasswordMessage (payload : String)
  | resetAuthState
  | clearForm
  | clearResetMessage
  deriving DecidableEq

/-- The modular `authReducer` from `src/app/context/auth/reducer.ts`. -/
def authReducer (state : AuthState) (action : AuthAction) : AuthState :=
  match action with
  | .setAuthEmail payload => { state with authEmail := stripWhitespace payload }
  | .setAuthPassword payload => { state with authPassword := payload }
  | .setError payload => { state with error := payload }
  | .setAuthToken token => { state with authToken := token }
  | .setLoading payload => { state with isLoading := payload }
  | .setCurrentUser payload =>
    { state with
      currentUser := payload
      authToken := payload.map (fun u => u.sessionToken)
      username := payload.map (fun u => u.username) }
  | .setResetPasswordMessage payload => { state with resetPasswordMessage := some payload }
  | .clearResetMessage => { state with resetPasswordMessage := none }
  | .resetAuthState =>
    { state with
      authEmail := ""
      authPassword := ""
      error := ""
      isLoading := false
      currentUser := none
      authToken := none
      username := none
      resetPasswordMessage := none }
  | .clearForm =>
    { state with
      authEmail := ""
      authPassword := ""
      error := ""
      isLoading := false
      resetPasswordMessage := none }

/-- The legacy inline reducer from `src/app/context/AuthContext.tsx`
(lines 69-118), embedded separately so that the two variants can be
compared. -/
def authReducerLegacy (state : AuthState) (action : AuthAction) : AuthState :=
  match action with
  | .setAuthEmail payload => { state with authEmail := stripWhitespace payload }
  | .setAuthPassword payload => { state with authPassword := payload }
  | .setError payload => { state with error := payload }
  | .setAuthToken token => { state with authToken := token }
  | .setLoading payload => { state with isLoading := payload }
  | .setCurrentUser payload =>
    { state with
      currentUser := payload
      authToken := payload.map (fun u => u.sessionToken)
      username := payload.map (fun u => u.username) }
  | .setResetPasswordMessage payload => { state with resetPasswordMessage := some payload }
  | .clearResetMessage => { state with resetPasswordMessage := none }
  | .resetAuthState =>
    { state with
      authEmail := ""
      authPassword := ""
      error := ""
      isLoading := false
      currentUser := none
      authToken := none
      username := none
      resetPasswordMessage := none }
  | .clearForm =>
    { state with
      authEmail := ""
      authPassword := ""
      error := ""
      isLoading := false
      resetPasswordMessage := none }

/-! ## Helper lemmas -/

/-- When a character is absent the first-occurrence split yields `none`. -/
theorem splitAtFirst_eq_none_of_not_mem (c : Char) :
    ∀ cs : List Char, c ∉ cs → splitAtFirst c cs = none := by
  intro cs
  induction cs with
  | nil => intro _; rfl
  | cons x xs ih =>
    intro h
    have hx : ¬(x = c) := fun hxc => h (hxc ▸ List.mem_cons_self x xs)
    have hxs : c ∉ xs := fun hm => h (List.mem_cons_of_mem x hm)
    simp only [splitAtFirst, if_neg hx, ih hxs]

/-! ## Claim theorems (reducer and validation) -/

/-- Claim C8: the CLEAR_FORM action is idempotent — dispatching
`ClearForm` twice in a row yields the same state as dispatching it once. -/
theorem clear_form_idempotent (s : AuthState) :
    authReducer (authReducer s .clearForm) .clearForm = authReducer s .clearForm := by
  rfl

/-- Claim C9: every non-empty string without an `@` character is rejected
by `validateEmail` (the regex demands a literal `@`, so such a string can
never be accepted). -/
theorem validateEmail_rejects_no_at (s : String)
    (h1 : s.length ≠ 0) (h2 : '@' ∉ s.data) :
    (validateEmail s).isSome = true := by
  have hsplit : splitAtFirst '@' s.data = none :=
    splitAtFirst_eq_none_of_not_mem '@' s.data h2
  have hreg : emailRegexTest s = false := by
    unfold emailRegexTest
    rw [hsplit]
  simp [validateEmail, hreg, h1]

/-- Witness for C9 at the concrete input `"abc"`. -/
theorem validateEmail_rejects_no_at_witness :
    (validateEmail "abc").isSome = true :=
  validateEmail_rejects_no_at "abc" (by decide) (by decide)

/-- Claim C10: the legacy reducer defined inline in `AuthContext.tsx` and
the modular reducer of `reducer.ts` are extensionally equal — every state
and action produce the same next state. -/
theorem legacy_reducer_equals_modular (s : AuthState) (a : AuthAction) :
    authReducerLegacy s a = authReducer s a := by
  cases a <;> rfl

/-! ## Service result shape and persistence capability -/

/-- Uniform service result `{success, error?, message?, user?}`. -/
structure ServiceResult where
  success : Bool
  error : Option String
  user : Option User
  message : Option String
  deriving DecidableEq

/-- The MMKV persisted pair: raw token string plus structured snapshot. -/
structure Persist where
  token : Option String
  userData : Option PersistedUserData
  deriving DecidableEq

/-- `persistUserData` of `AuthProvider.tsx`: write the raw session token
and the derived snapshot in one logical unit. -/
def persistUserData (p : Persist) (user : User) : Persist :=
  let userData : PersistedUserData :=
    { objectId := user.objectId
      sessionToken := user.sessionToken
      username := user.username
      email := user.email }
  { p with token := some user.sessionToken, userData := some userData }

/-! ## Login service (`loginUser` in `services.ts`) -/

/-- Backend environment for a credential login: the connectivity probe
outcome and the outcome of `Parse.User.logIn`. -/
structure LoginEnv where
  serverRunning : Bool
  logIn : Except String User

/-- The four fetch/XHR/ECONNREFUSED-style network signals the error
classifiers test with `message.includes`. -/
def networkErrorSignal (msg : String) : Bool :=
  strIncludes msg "XMLHttpRequest" || strIncludes msg "Network Error" ||
  strIncludes msg "Failed to fetch" || strIncludes msg "ECONNREFUSED"

/-- Catch-block classifier of `loginUser`. -/
def classifyLoginError (msg : String) : String :=
  if strIncludes msg "Invalid username/password" then
    "Invalid email or password. Please try again."
  else if networkErrorSignal msg then
    "Cannot connect to server. Please check if the Parse server is running."
  else msg

/-- `loginUser` from `services.ts`: local validation, connectivity gate,
then the backend login with catch-block classification. -/
def loginUser (env : LoginEnv) (email password : String) : ServiceResult :=
  if optTruthy (validateEmail email) || optTruthy (validatePassword password) then
    { success := false, error := jsOrStr (validateEmail email) (validatePassword password),
      user := none, message := none }
  else if !env.serverRunning then
    { success := false,
      error := some "Parse server is not running. Please check your server connection.",
      user := none, message := none }
  else
    match env.logIn with
    | .ok user =>
      { success := true, error := none, user := some user, message := none }
    | .error msg =>
      { success := false, error := some (classifyLoginError msg),
        user := none, message := none }

/-! ## Coordinator `login` wrapper (`AuthProvider.tsx`) -/

/-- The post-service dispatch block of the `login` wrapper: on
`result.success && result.user` adopt the user, persist, and clear the
form; otherwise, if `result.error` is truthy, surface it. -/
def loginApply (s2 : AuthState) (p0 : Persist) (result : ServiceResult) :
    AuthState × Persist :=
  if result.success && result.user.isSome then
    match result.user with
    | some u =>
      (authReducer (authReducer s2 (.setCurrentUser (some u))) .clearForm,
       persistUserData p0 u)
    | none => (s2, p0)
  else if optTruthy result.error then
    (authReducer s2 (.setError (result.error.getD "")), p0)
  else (s2, p0)

/-- The coordinator `login` wrapper: dispatch loading and error-clear,
call `loginUser` on the captured form fields, apply the result, and
finally always dispatch `SET_LOADING false`. -/
def login (env : LoginEnv) (s0 : AuthState) (p0 : Persist) :
    ServiceResult × AuthState × Persist :=
  let s2 := authReducer (authReducer s0 (.setLoading true)) (.setError "")
  let result := loginUser env s0.authEmail s0.authPassword
  let sp := loginApply s2 p0 result
  (result, authReducer sp.1 (.setLoading false), sp.2)

/-! ## Helper lemmas about login -/

/-- A failed service result leaves `currentUser` and `authToken` of the
dispatch block untouched. -/
theorem loginApply_of_not_success (s2 : AuthState) (p0 : Persist)
    (r : ServiceResult) (h : r.success = false) :
    (loginApply s2 p0 r).1.currentUser = s2.currentUser ∧
    (loginApply s2 p0 r).1.authToken = s2.authToken := by
  unfold loginApply
  rw [h]
  split
  · rename_i hcond
    simp at hcond
  · split <;> exact ⟨rfl, rfl⟩

/-- With the connectivity probe false, `loginUser` cannot succeed. -/
theorem loginUser_success_false_of_server_down (env : LoginEnv)
    (email password : String) (h : env.serverRunning = false) :
    (loginUser env email password).success = false := by
  unfold loginUser
  rw [h]
  split
  · rfl
  · rfl

/-- A successful `loginUser` always carries the backend user. -/
theorem loginUser_success_shape (env : LoginEnv) (email password : String)
    (h : (loginUser env email password).success = true) :
    ∃ u, loginUser env email password =
      { success := true, error := none, user := some u, message := none } := by
  unfold loginUser at h ⊢
  by_cases hv : (optTruthy (validateEmail email) || optTruthy (validatePassword password)) = true
  · rw [if_pos hv] at h
    simp at h
  · rw [if_neg hv] at h ⊢
    by_cases hs : (!env.serverRunning) = true
    · rw [if_pos hs] at h
      simp at h
    · rw [if_neg hs] at h ⊢
      cases heq : env.logIn with
      | ok u =>
        exact ⟨u, rfl⟩
      | error msg =>
        rw [heq] at h
        simp at h

/-! ## Claim theorems (login) -/

/-- Claim C1: whenever `login` returns `{success := false}` — from local
validation, a false connectivity probe, or a backend error — the state
fields `currentUser` and `authToken` are unchanged; in particular a false
connectivity probe leaves `currentUser` unset. -/
theorem login_failure_preserves_identity (env : LoginEnv) (s0 : AuthState)
    (p0 : Persist) :
    ((login env s0 p0).1.success = false →
      (login env s0 p0).2.1.currentUser = s0.currentUser ∧
      (login env s0 p0).2.1.authToken = s0.authToken) ∧
    (env.serverRunning = false → s0.currentUser = none →
      (login env s0 p0).2.1.currentUser = none) := by
  constructor
  · intro hfail
    have h := loginApply_of_not_success
      (authReducer (authReducer s0 (.setLoading true)) (.setError ""))
      p0 (loginUser env s0.authEmail s0.authPassword) hfail
    exact ⟨h.1, h.2⟩
  · intro hserv hnone
    have hfail : (login env s0 p0).1.success = false :=
      loginUser_success_false_of_server_down env s0.authEmail s0.authPassword hserv
    have h := loginApply_of_not_success
      (authReducer (authReducer s0 (.setLoading true)) (.setError ""))
      p0 (loginUser env s0.authEmail s0.authPassword) hfail
    exact h.1.trans hnone

/-- Witness for C1: a concrete unreachable-backend login on the initial
state fails and preserves the unset identity fields. -/
theorem login_failure_preserves_identity_witness :
    ((login ⟨false, .error "ECONNREFUSED"⟩ initialAuthState ⟨none, none⟩).1.success = false →
      (login ⟨false, .error "ECONNREFUSED"⟩ initialAuthState ⟨none, none⟩).2.1.currentUser =
        initialAuthState.currentUser ∧
      (login ⟨false, .error "ECONNREFUSED"⟩ initialAuthState ⟨none, none⟩).2.1.authToken =
        initialAuthState.authToken) ∧
    (login ⟨false, .error "ECONNREFUSED"⟩ initialAuthState ⟨none, none⟩).2.1.currentUser = none :=
  ⟨(login_failure_preserves_identity ⟨false, .error "ECONNREFUSED"⟩ initialAuthState ⟨none, none⟩).1,
   (login_failure_preserves_identity ⟨false, .error "ECONNREFUSED"⟩ initialAuthState ⟨none, none⟩).2
     rfl rfl⟩

/-- Claim C7: `SET_CURRENT_USER` always derives `authToken` and
`username` from its payload (both unset when the payload is absent);
consequently a successful `login` leaves the state with
`authToken = currentUser.sessionToken` and
`username = currentUser.username`. -/
theorem set_current_user_derives_token_and_username :
    (∀ (s : AuthState) (u : Option User),
      (authReducer s (.setCurrentUser u)).authToken = u.map (fun v => v.sessionToken) ∧
      (authReducer s (.setCurrentUser u)).username = u.map (fun v => v.username)) ∧
    (∀ (env : LoginEnv) (s0 : AuthState) (p0 : Persist),
      (login env s0 p0).1.success = true →
      ∃ u, (login env s0 p0).2.1.currentUser = some u ∧
        (login env s0 p0).2.1.authToken = some u.sessionToken ∧
        (login env s0 p0).2.1.username = some u.username) := by
  constructor
  · intro s u
    exact ⟨rfl, rfl⟩
  · intro env s0 p0 hsucc
    obtain ⟨u, hu⟩ :=
      loginUser_success_shape env s0.authEmail s0.authPassword hsucc
    refine ⟨u, ?_, ?_, ?_⟩ <;>
      simp [login, loginApply, hu, authReducer, persistUserData]

/-- Witness for C7 at a concrete successful login. -/
theorem set_current_user_derives_token_and_username_witness :
    ∃ u,
      (login ⟨true, .ok ⟨"obj1", "tok1", "alice", "a@b.c"⟩⟩
        { initialAuthState with authEmail := "a@b.c", authPassword := "secret1" }
        ⟨none, none⟩).2.1.currentUser = some u ∧
      (login ⟨true, .ok ⟨"obj1", "tok1", "alice", "a@b.c"⟩⟩
        { initialAuthState with authEmail := "a@b.c", authPassword := "secret1" }
        ⟨none, none⟩).2.1.authToken = some u.sessionToken ∧
      (login ⟨true, .ok ⟨"obj1", "tok1", "alice", "a@b.c"⟩⟩
        { initialAuthState with authEmail := "a@b.c", authPassword := "secret1" }
        ⟨none, none⟩).2.1.username = some u.username :=
  set_current_user_derives_token_and_username.2
    ⟨true, .ok ⟨"obj1", "tok1", "alice", "a@b.c"⟩⟩
    { initialAuthState with authEmail := "a@b.c", authPassword := "secret1" }
    ⟨none, none⟩ (by decide)

/-! ## Google federated sign-in (`signInWithGoogle` in `services.ts`) -/

/-- The `authentication` object of an OAuth response (`TokenResponse`
narrowed to the two fields the code reads). -/
structure OAuthAuthentication where
  idToken : Option String
  accessToken : Option String
  deriving DecidableEq

/-- `GoogleAuthResponse` from `types.ts`: the response type tag and the
possibly-null `authentication` payload. -/
structure GoogleAuthResponse where
  type : String
  authentication : Option OAuthAuthentication
  deriving DecidableEq

/-- The fields destructured from the Google userinfo profile JSON. -/
structure GoogleProfile where
  sub : Option String
  email : Option String
  name : Option String
  picture : Option String
  deriving DecidableEq

/-- An HTTP response of the profile fetch: `ok` flag, numeric `status`,
and the parsed JSON body. -/
structure ProfileHttp where
  ok : Bool
  status : Nat
  profile : GoogleProfile
  deriving DecidableEq

/-- Backend environment for federated sign-in: connectivity probe, the
profile `fetch` (which may throw, e.g. a network `Failed to fetch`), and
`Parse.User.logInWith`. -/
structure GoogleEnv where
  serverRunning : Bool
  profileFetch : Except String ProfileHttp
  logInWith : Except String User

/-- Catch-block classifier of `signInWithGoogle`: only the network
signals are rewritten; every other message passes through raw. -/
def classifyGoogleError (msg : String) : String :=
  if networkErrorSignal msg then
    "Cannot connect to server. Please check if the Parse server is running."
  else msg

/-- The throwing body of `signInWithGoogle` after the token check and
connectivity gate: fetch the profile, require `ok`, require `sub`, require
`email` and `name`, call `logInWith`, then set the trimmed display name as
username and the profile email on the returned user. -/
def googleAuthBody (env : GoogleEnv) : Except String User :=
  match env.profileFetch with
  | .error msg => .error msg
  | .ok pr =>
    if !pr.ok then
      .error ("Failed to fetch user profile: " ++ toString pr.status)
    else if !(optTruthy pr.profile.sub) then
      .error "Google ID (sub) not found in user profile"
    else if !(optTruthy pr.profile.email) || !(optTruthy pr.profile.name) then
      .error "Required user information missing from Google profile"
    else
      match env.logInWith with
      | .error msg => .error msg
      | .ok user =>
        .ok { user with
              username := jsTrim (pr.profile.name.getD "")
              email := pr.profile.email.getD "" }

/-- `signInWithGoogle` past the token check: the connectivity gate, then
the throwing body with catch-block classification. -/
def signInWithGoogleGated (env : GoogleEnv) : ServiceResult :=
  if !env.serverRunning then
    { success := false,
      error := some "Parse server is not running. Please check your server connection.",
      user := none, message := none }
  else
    match googleAuthBody env with
    | .ok user =>
      { success := true, error := none, user := some user, message := none }
    | .error msg =>
      { success := false, error := some (classifyGoogleError msg),
        user := none, message := none }

/-- `signInWithGoogle` from `services.ts`: reject a non-success response
type, reject when `idToken` or `accessToken` is falsy, then proceed to
the gated body. -/
def signInWithGoogle (env : GoogleEnv) (response : GoogleAuthResponse) :
    ServiceResult :=
  if response.type != "success" then
    { success := false,
      error := some "Google authentication was cancelled or failed",
      user := none, message := none }
  else if !(optTruthy (response.authentication.bind (fun a => a.idToken))) ||
          !(optTruthy (response.authentication.bind (fun a => a.accessToken))) then
    { success := false,
      error := some "Incomplete authentication data. Please try signing in again.",
      user := none, message := none }
  else
    signInWithGoogleGated env

/-! ## Concrete inputs for the Google claims -/

/-- A success OAuth response carrying both tokens. -/
def respBothTokens : GoogleAuthResponse :=
  { type := "success"
    authentication := some { idToken := some "id-token", accessToken := some "access-token" } }

/-- A success OAuth response carrying only the identity token. -/
def respOnlyIdToken : GoogleAuthResponse :=
  { type := "success"
    authentication := some { idToken := some "id-token", accessToken := none } }

/-- An environment whose profile fetch answers HTTP 403 (non-OK). -/
def envStatus403 : GoogleEnv :=
  { serverRunning := true
    profileFetch := .ok { ok := false, status := 403,
                          profile := { sub := none, email := none, name := none, picture := none } }
    logInWith := .error "unreached" }

/-- A reachable environment with a fully populated profile. -/
def envProfileOk : GoogleEnv :=
  { serverRunning := true
    profileFetch := .ok { ok := true, status := 200,
                          profile := { sub := some "g-sub", email := some "a@b.c",
                                       name := some "Alice", picture := none } }
    logInWith := .ok ⟨"obj1", "tok1", "alice", "a@b.c"⟩ }

/-! ## Claim theorems (Google sign-in) -/

/-- Claim C2 (code bug): with both tokens present, the backend reachable,
and the profile fetch answering the non-OK status 403, the thrown message
"Failed to fetch user profile: 403" is captured by the network-signal
classifier (it contains "Failed to fetch"), so the returned error is the
generic connectivity message and the HTTP status code 403 is NOT embedded
in it, contrary to the stated behaviour. -/
theorem google_profile_status_code_clobbered :
    signInWithGoogle envStatus403 respBothTokens =
      { success := false,
        error := some "Cannot connect to server. Please check if the Parse server is running.",
        user := none, message := none } ∧
    strIncludes "Cannot connect to server. Please check if the Parse server is running." "403"
      = false := by
  exact ⟨by decide, by decide⟩

/-- Counterexample to claim C3 as stated: a success response whose
identity token is present (so at least one token is present) is still
rejected with the incomplete-authentication-data failure, instead of
proceeding past the check to the connectivity gate. -/
theorem google_single_token_still_rejected :
    optTruthy (respOnlyIdToken.authentication.bind (fun a => a.idToken)) = true ∧
    signInWithGoogle envProfileOk respOnlyIdToken =
      { success := false,
        error := some "Incomplete authentication data. Please try signing in again.",
        user := none, message := none } := by
  exact ⟨by decide, by decide⟩

/-- Claim C3 as amended: for a success-typed OAuth response, federated
sign-in returns the incomplete-authentication-data failure iff the
identity token or the access token is falsy; only when both are present
does it proceed past the check to the connectivity gate. -/
theorem google_token_check_characterization (env : GoogleEnv)
    (response : GoogleAuthResponse) (htype : response.type = "success") :
    ((optTruthy (response.authentication.bind (fun a => a.idToken)) = false ∨
      optTruthy (response.authentication.bind (fun a => a.accessToken)) = false) →
      signInWithGoogle env response =
        { success := false,
          error := some "Incomplete authentication data. Please try signing in again.",
          user := none, message := none }) ∧
    (optTruthy (response.authentication.bind (fun a => a.idToken)) = true →
      optTruthy (response.authentication.bind (fun a => a.accessToken)) = true →
      signInWithGoogle env response = signInWithGoogleGated env) := by
  constructor
  · intro hmiss
    unfold signInWithGoogle
    rw [htype]
    cases hmiss with
    | inl hid => simp [hid]
    | inr hacc => simp [hacc]
  · intro hid hacc
    unfold signInWithGoogle
    rw [htype]
    simp [hid, hacc]

/-- Witness for the amended C3: the single-token response is rejected and
the both-token response reaches the connectivity gate. -/
theorem google_token_check_characterization_witness :
    signInWithGoogle envProfileOk respOnlyIdToken =
      { success := false,
        error := some "Incomplete authentication data. Please try signing in again.",
        user := none, message := none } ∧
    signInWithGoogle envProfileOk respBothTokens = signInWithGoogleGated envProfileOk :=
  ⟨(google_token_check_characterization envProfileOk respOnlyIdToken rfl).1
      (Or.inr (by decide)),
   (google_token_check_characterization envProfileOk respBothTokens rfl).2
      (by decide) (by decide)⟩

/-! ## Logout (`logoutUser` in `services.ts`, `logout` in `AuthProvider.tsx`) -/

/-- `logoutUser` from `services.ts`: the backend `Parse.User.logOut` call
is attempted inside its own try/catch whose catch only logs a warning, so
both outcomes fall through to `return { success: true }`; the outer catch
is unreachable because nothing after the inner try/catch can throw. -/
def logoutUser (backendLogout : Except String Unit) : ServiceResult :=
  match backendLogout with
  | .ok _ =>
    { success := true, error := none, user := none, message := none }
  | .error _ =>
    { success := true, error := none, user := none, message := none }

/-- Observable effects of the coordinator `logout`, in execution order. -/
inductive Effect where
  | erasePersistedToken
  | erasePersistedUserData
  | dispatched (a : AuthAction)
  | backendLogoutAttempt
  deriving DecidableEq

/-- The coordinator `logout` from `AuthProvider.tsx`: clear the persisted
token, clear the persisted snapshot, dispatch `RESET_AUTH_STATE`, then
await `logoutUser`; if the result carried a truthy error (it never does)
it would be dispatched as `SET_ERROR`. The fourth component is the
ordered effect trace. -/
def logout (backendLogout : Except String Unit) (s0 : AuthState) (p0 : Persist) :
    ServiceResult × AuthState × Persist × List Effect :=
  let p1 : Persist := { p0 with token := none }
  let t1 : List Effect := [Effect.erasePersistedToken]
  let p2 : Persist := { p1 with userData := none }
  let t2 : List Effect := t1 ++ [Effect.erasePersistedUserData]
  let s1 := authReducer s0 .resetAuthState
  let t3 : List Effect := t2 ++ [Effect.dispatched .resetAuthState]
  let result := logoutUser backendLogout
  let t4 : List Effect := t3 ++ [Effect.backendLogoutAttempt]
  if optTruthy result.error then
    (result, authReducer s1 (.setError (result.error.getD "")), p2,
     t4 ++ [Effect.dispatched (.setError (result.error.getD ""))])
  else
    (result, s1, p2, t4)

/-! ## Boot restore protocol (`initializeAuth`) -/

/-- Backend environment of the boot restore: the locally cached
`Parse.User.currentAsync` outcome (may throw or resolve to null) and the
`Parse.User.become` outcome for the persisted token. -/
structure BootEnv where
  currentAsync : Except String (Option User)
  become : Except String User

/-- `restoreUserSession` from `services.ts`: `Parse.User.become` in a
try/catch that converts any failure to null. -/
def restoreUserSession (become : Except String User) : Option User :=
  match become with
  | .ok user => some user
  | .error _ => none

/-- The guarded fast path of `initializeAuth`: adopt the locally cached
current user only when it exists and its session token equals the
persisted token; a thrown `currentAsync` is caught and ignored. -/
def fastPathUser (currentAsync : Except String (Option User)) (tok : String) :
    Option User :=
  match currentAsync with
  | .ok (some cu) => if cu.sessionToken == tok then some cu else none
  | _ => none

/-- The modular `initializeAuth` of `AuthProvider.tsx`: with both
persisted fields present (and the token truthy), try the fast path, else
restore the session from the token; a user restores the token and adopts
the user, while a null restore (any `become` failure) erases both
persisted fields. -/
def initializeAuth (env : BootEnv) (s0 : AuthState) (p0 : Persist) :
    AuthState × Persist :=
  if optTruthy p0.token && p0.userData.isSome then
    match fastPathUser env.currentAsync (p0.token.getD "") with
    | some cu => (authReducer s0 (.setCurrentUser (some cu)), p0)
    | none =>
      match restoreUserSession env.become with
      | some user =>
        (authReducer (authReducer s0 (.setAuthToken p0.token)) (.setCurrentUser (some user)),
         p0)
      | none => (s0, { p0 with token := none, userData := none })
  else (s0, p0)

/-- The legacy `initializeAuth` of `AuthContext.tsx` (lines 231-263):
it calls `Parse.User.become` directly, so a restore failure is a throw
caught by the catch block that erases both persisted fields. -/
def initializeAuthLegacy (env : BootEnv) (s0 : AuthState) (p0 : Persist) :
    AuthState × Persist :=
  if optTruthy p0.token && p0.userData.isSome then
    match fastPathUser env.currentAsync (p0.token.getD "") with
    | some cu => (authReducer s0 (.setCurrentUser (some cu)), p0)
    | none =>
      match env.become with
      | .ok user =>
        (authReducer (authReducer s0 (.setAuthToken p0.token)) (.setCurrentUser (some user)),
         p0)
      | .error _ => (s0, { p0 with token := none, userData := none })
  else (s0, p0)

/-! ## Claim theorems (logout and boot restore) -/

/-- Claim C4: `logoutUser` and the coordinator `logout` always return
`{success := true}` with no error, for every behaviour of the backend
logout operation (resolve or throw): the thrown failure is swallowed and
never surfaced in the returned result. -/
theorem logout_swallows_backend_failure (backendLogout : Except String Unit)
    (s0 : AuthState) (p0 : Persist) :
    logoutUser backendLogout =
      { success := true, error := none, user := none, message := none } ∧
    (logout backendLogout s0 p0).1 =
      { success := true, error := none, user := none, message := none } := by
  cases backendLogout <;> exact ⟨rfl, rfl⟩

/-- Claim C5: on every invocation the coordinator `logout` performs, in
order, the persisted-token erase, the persisted-snapshot erase, the
`RESET_AUTH_STATE` dispatch, and only then the backend logout attempt —
the backend call never precedes the persistence clear or the state
clear. -/
theorem logout_effect_order (backendLogout : Except String Unit)
    (s0 : AuthState) (p0 : Persist) :
    (logout backendLogout s0 p0).2.2.2 =
      [Effect.erasePersistedToken, Effect.erasePersistedUserData,
       Effect.dispatched .resetAuthState, Effect.backendLogoutAttempt] := by
  cases backendLogout <;> rfl

/-- Claim C6: during boot restore, when the fast path does not adopt a
cached user and the session restore with the persisted token fails (the
`become` call throws, which the modular service surfaces as a null
restore), both the persisted token and the persisted snapshot are erased
— in the modular provider and in the legacy one alike. -/
theorem boot_restore_failure_erases_persistence (env : BootEnv)
    (s0 : AuthState) (p0 : Persist) (e : String)
    (htok : optTruthy p0.token = true)
    (hdata : p0.userData.isSome = true)
    (hfast : fastPathUser env.currentAsync (p0.token.getD "") = none)
    (hbecome : env.become = .error e) :
    (initializeAuth env s0 p0).2.token = none ∧
    (initializeAuth env s0 p0).2.userData = none ∧
    (initializeAuthLegacy env s0 p0).2.token = none ∧
    (initializeAuthLegacy env s0 p0).2.userData = none := by
  unfold initializeAuth initializeAuthLegacy
  rw [htok, hdata, hfast, hbecome]
  simp [restoreUserSession]

/-- Witness for C6: a concrete boot with a stale persisted token, no
cached current user, and a failing restore erases both persisted
fields. -/
theorem boot_restore_failure_erases_persistence_witness :
    (initializeAuth ⟨.ok none, .error "Invalid session token"⟩ initialAuthState
      ⟨some "r:stale", some ⟨"obj1", "r:stale", "alice", "a@b.c"⟩⟩).2.token = none ∧
    (initializeAuth ⟨.ok none, .error "Invalid session token"⟩ initialAuthState
      ⟨some "r:stale", some ⟨"obj1", "r:stale", "alice", "a@b.c"⟩⟩).2.userData = none ∧
    (initializeAuthLegacy ⟨.ok none, .error "Invalid session token"⟩ initialAuthState
      ⟨some "r:stale", some ⟨"obj1", "r:stale", "alice", "a@b.c"⟩⟩).2.token = none ∧
    (initializeAuthLegacy ⟨.ok none, .error "Invalid session token"⟩ initialAuthState
      ⟨some "r:stale", some ⟨"obj1", "r:stale", "alice", "a@b.c"⟩⟩).2.userData = none :=
  boot_restore_failure_erases_persistence
    ⟨.ok none, .error "Invalid session token"⟩ initialAuthState
    ⟨some "r:stale", some ⟨"obj1", "r:stale", "alice", "a@b.c"⟩⟩
    "Invalid session token" (by decide) rfl rfl rfl
